import Mathlib

/-
  Shallow embedding of src/failover-handler.py (a Serf event hook that
  fails over AWS elastic IPs between availability zones).

  Modelling conventions:
  * The script is Python 2: `t / 2` on non-negative ints is floor division,
    `map` is eager, a dict built from pair lists lets later keys win.
  * External collaborators (serf query, EC2 API, instance metadata, the OS
    interface check) are modelled by an `Env` record of oracles; the cloud
    and OS side effects the script issues are recorded as an `Action` trace.
  * A Python exception is an `Err` value; a step returns its action trace
    together with `Option Err` (`some e` = the exception `e` escaped it).
-/

namespace EipFailover

def ROLE : String := "eip"

/-- Python exceptions that the script can raise, by class. -/
inductive Err where
  | keyError
  | valueError
  | indexError
  | resourceApiError
deriving DecidableEq

/-- One zone entry of /etc/eip.conf: a JSON object (string fields) or some
non-object JSON value (the code guards each access with `isinstance(entry, dict)`). -/
inductive Entry where
  | obj (fields : List (String × String))
  | nonObj
deriving DecidableEq

/-- `entry.get(k)` on a Python dict: first matching key of the field list
(field keys of a parsed JSON object are unique). -/
def dictGet (fields : List (String × String)) (k : String) : Option String :=
  (fields.find? (fun p => p.1 == k)).map (fun p => p.2)

/-- The parsed config dict of src line 62-64: zone key to entry, keys unique. -/
structure Config where
  entries : List (String × Entry)
deriving DecidableEq

/-- `self.config_dict[az]` as a total lookup: `none` models a KeyError. -/
def Config.find (c : Config) (az : String) : Option Entry :=
  (c.entries.find? (fun p => p.1 == az)).map (fun p => p.2)

/-- `Config.num_zones` (src 66-67): `len(self.config_dict)`. -/
def Config.num_zones (c : Config) : Nat :=
  c.entries.length

/-- `Config.elastic_ip_allocation_id` (src 69-73): `self.config_dict[az]`
raises KeyError when `az` is not a key; a dict entry answers
`entry.get('elastic_ip_allocation_id')`; a non-dict entry answers None. -/
def Config.elastic_ip_allocation_id (c : Config) (az : String) :
    Except Err (Option String) :=
  match c.find az with
  | none => .error .keyError
  | some (.obj fields) => .ok (dictGet fields "elastic_ip_allocation_id")
  | some .nonObj => .ok none

/-- `Config.eth1_id` (src 75-79): same shape for the standby interface id. -/
def Config.eth1_id (c : Config) (az : String) : Except Err (Option String) :=
  match c.find az with
  | none => .error .keyError
  | some (.obj fields) => .ok (dictGet fields "eth1_id")
  | some .nonObj => .ok none

/-- `Quorum.alive n` (src 158-162) runs
`serf members -tag role=eip -status=alive -format json | jq (.members | length >= n) | grep true`
and answers `res == 0`. The pipeline exits 0 exactly when the serf query
succeeded with some alive count `c` and `c >= n`; any failure of the query
leaves grep without a `true` line, a nonzero exit, hence False.
`aliveCount = none` models a failed query. -/
def Quorum.alive (aliveCount : Option Nat) (n : Nat) : Bool :=
  match aliveCount with
  | some c => decide (n ≤ c)
  | none => false

/-- `Quorum.quorum` (src 152-156): `t = num_zones(); n = t - t / 2` with
Python 2 floor division, then `alive(n)`. -/
def Quorum.quorum (c : Config) (aliveCount : Option Nat) : Bool :=
  Quorum.alive aliveCount (c.num_zones - c.num_zones / 2)

/-- Outcome of one probe attempt in `is_member_down` (src 206-221):
`connect_ex` returned the code `r` (0 = connected), or the attempt raised
an exception (caught by the `except` arm). -/
inductive AttemptOutcome where
  | code (r : Int)
  | exc
deriving DecidableEq

/-- The retry loop of `is_member_down` (src 209-220): `result` starts at -1,
a returned code overwrites it, code 0 breaks out, an exception leaves it
unchanged; each iteration consumes one of the 3 retries. -/
def probeLoop (o : Nat → AttemptOutcome) : Nat → Nat → Int → Int
  | _, 0, result => result
  | i, r + 1, result =>
    match o i with
    | .code c => if c = 0 then c else probeLoop o (i + 1) r c
    | .exc => probeLoop o (i + 1) r result

/-- Number of attempts the loop of `is_member_down` actually makes. -/
def probeAttempts (o : Nat → AttemptOutcome) : Nat → Nat → Nat
  | _, 0 => 0
  | i, r + 1 =>
    match o i with
    | .code c => if c = 0 then 1 else 1 + probeAttempts o (i + 1) r
    | .exc => 1 + probeAttempts o (i + 1) r

/-- `is_member_down` (src 206-221): `return False if result == 0 else True`. -/
def is_member_down (o : Nat → AttemptOutcome) : Bool :=
  if probeLoop o 0 3 (-1) = 0 then false else true

/-- One parsed serf member row (src 168-173); the tag dict is kept as the
parsed pair list, looked up with last-key-wins dict semantics. -/
structure SerfMember where
  hostname : String
  ip : String
  role : String
  tags : List (String × String)
deriving DecidableEq

/-- Python dict lookup on a dict built from a pair list: the last
occurrence of a duplicated key wins. -/
def dictLookupLast (ps : List (String × String)) (k : String) : Option String :=
  (ps.reverse.find? (fun p => p.1 == k)).map (fun p => p.2)

/-- Python `str.isspace` characters relevant to `strip()`. -/
def isPySpace (c : Char) : Bool :=
  c == ' ' || c == '\t' || c == '\n' || c == '\r' || c == '\x0b' || c == '\x0c'

/-- Python `row.strip()`: drop whitespace from both ends. -/
def pyStrip (cs : List Char) : List Char :=
  ((cs.dropWhile isPySpace).reverse.dropWhile isPySpace).reverse

/-- Python `s.split(sep)` for a one-character separator: split on every
occurrence, keeping empty pieces, so the empty string gives one empty
piece. -/
def pySplit (sep : Char) : List Char → List (List Char)
  | [] => [[]]
  | c :: cs =>
    match pySplit sep cs with
    | [] => [[]]
    | g :: gs => if c == sep then [] :: g :: gs else (c :: g) :: gs

/-- The per-pair body of `parse_tags` (src 187-190): `x.split('=')` must
yield exactly two pieces, else `dict(...)` raises ValueError. -/
def parseTagList : List (List Char) → Except Err (List (String × String))
  | [] => .ok []
  | x :: xs =>
    match pySplit '=' x with
    | [a, b] =>
      match parseTagList xs with
      | .ok rest => .ok ((String.mk a, String.mk b) :: rest)
      | .error e => .error e
    | _ => .error .valueError

/-- `SerfMember.parse_tags` (src 186-190): split on commas, each piece
split on `=` into exactly one key and one value. -/
def parse_tags (tagstr : String) : Except Err (List (String × String)) :=
  parseTagList (pySplit ',' tagstr.data)

/-- `SerfMember.parse_member` (src 179-184): `row.strip().split('\t')`
must unpack into exactly 4 fields (else ValueError), then the tags parse. -/
def parse_member (row : String) : Except Err SerfMember :=
  match (pySplit '\t' (pyStrip row.data)).map String.mk with
  | [hostname, ip, role, tagstr] =>
    match parse_tags tagstr with
    | .ok tags => .ok ⟨hostname, ip, role, tags⟩
    | .error e => .error e
  | _ => .error .valueError

/-- The eager `map(SerfMember.parse, rows)` of src 225: the first malformed
row raises out of the whole map. -/
def parseRows : List String → Except Err (List SerfMember)
  | [] => .ok []
  | r :: rs =>
    match parse_member r with
    | .error e => .error e
    | .ok m =>
      match parseRows rs with
      | .error e => .error e
      | .ok ms => .ok (m :: ms)

/-- `get_serf_members` (src 224-227): parse every stdin row, then keep the
rows whose role is `eip`. -/
def get_serf_members (rows : List String) : Except Err (List SerfMember) :=
  match parseRows rows with
  | .error e => .error e
  | .ok ms => .ok (ms.filter (fun m => m.role == ROLE))

/-- Cloud and OS side effects issued by the script, in order. -/
inductive Action where
  | probe (ip : String)
  | describeIface (id : Option String)
  | attachIface (id : Option String) (instanceId : String)
  | ifupCycle
  | getInstances
  | associate (ifaceId : Option String) (allocId : String)
  | detachIface (id : Option String)
deriving DecidableEq

/-- Oracles for the external collaborators of one run. `ifupFailures` is
the number of times the `ifconfig | grep eth1` check of the bring-up loop
fails before the interface appears (the script loops until it does;
the model takes the interface to eventually come up). `associateFails a`
and `attachFails` inject a boto exception into the corresponding EC2 call. -/
structure Env where
  aliveCount : Option Nat
  instanceId : String
  currentAz : String
  ifaceStatus : Option String → Option String
  instanceIfaceIds : List String
  probeOutcomes : String → Nat → AttemptOutcome
  ifupFailures : Nat
  associateFails : String → Bool
  attachFails : Bool

/-- Python truthiness of the looked-up allocation id (src 113):
None and the empty string are falsy. -/
def truthy : Option String → Bool
  | none => false
  | some s => !(s == "")

/-- `Handler.eth0_id` (src 100-105): list the local instance, then keep the
interfaces whose id differs from `self.eth1_id` and take the first
(IndexError when there is none). Evaluating `self.eth1_id` can itself
raise KeyError when the local zone is missing from the config. -/
def Handler.eth0_id (cfg : Config) (env : Env) :
    List Action × Except Err String :=
  match cfg.eth1_id env.currentAz with
  | .error e => ([Action.getInstances], .error e)
  | .ok e1 =>
    match env.instanceIfaceIds.filter (fun i => !(some i == e1)) with
    | [] => ([Action.getInstances], .error .indexError)
    | i :: _ => ([Action.getInstances], .ok i)

/-- `Handler.take_elastic_ip` (src 111-117): look the zone's allocation id
up (KeyError for an unregistered zone); when it is truthy, associate it
onto eth0 for the local zone and onto eth1 for any other zone. -/
def Handler.take_elastic_ip (cfg : Config) (env : Env) (az : String) :
    List Action × Option Err :=
  match cfg.elastic_ip_allocation_id az with
  | .error e => ([], some e)
  | .ok eid =>
    if truthy eid then
      let allocId := eid.getD ""
      if az == env.currentAz then
        match Handler.eth0_id cfg env with
        | (tr, .error e) => (tr, some e)
        | (tr, .ok i0) =>
          if env.associateFails allocId then
            (tr ++ [Action.associate (some i0) allocId], some .resourceApiError)
          else
            (tr ++ [Action.associate (some i0) allocId], none)
      else
        match cfg.eth1_id env.currentAz with
        | .error e => ([], some e)
        | .ok e1 =>
          if env.associateFails allocId then
            ([Action.associate e1 allocId], some .resourceApiError)
          else
            ([Action.associate e1 allocId], none)
    else ([], none)

/-- `Handler.attach_interface` (src 125-139): describe the standby
interface; only when it exists with status `available`, attach it and run
the ifdown/ifup loop until the OS reports eth1 present. -/
def Handler.attach_interface (cfg : Config) (env : Env) :
    List Action × Option Err :=
  match cfg.eth1_id env.currentAz with
  | .error e => ([], some e)
  | .ok e1 =>
    match env.ifaceStatus e1 with
    | some status =>
      if status == "available" then
        if env.attachFails then
          ([Action.describeIface e1, Action.attachIface e1 env.instanceId],
            some .resourceApiError)
        else
          ([Action.describeIface e1, Action.attachIface e1 env.instanceId]
            ++ List.replicate (env.ifupFailures + 1) Action.ifupCycle, none)
      else ([Action.describeIface e1], none)
    | none => ([Action.describeIface e1], none)

/-- `Handler.detach_interface` (src 119-123): describe the standby
interface, detach it only when it exists with status `in-use`. -/
def Handler.detach_interface (cfg : Config) (env : Env) :
    List Action × Option Err :=
  match cfg.eth1_id env.currentAz with
  | .error e => ([], some e)
  | .ok e1 =>
    match env.ifaceStatus e1 with
    | some status =>
      if status == "in-use" then
        ([Action.describeIface e1, Action.detachIface e1], none)
      else ([Action.describeIface e1], none)
    | none => ([Action.describeIface e1], none)

/-- The body of the leave/failed loop for one member (src 255-265): the
log line evaluates `member.az` (KeyError when the az tag is missing),
the probe decides, and a confirmed-down member gets attach_interface then
take_elastic_ip for its zone. -/
def processMember (cfg : Config) (env : Env) (m : SerfMember) :
    List Action × Option Err :=
  match dictLookupLast m.tags "az" with
  | none => ([], some .keyError)
  | some az =>
    if is_member_down (env.probeOutcomes m.ip) then
      match Handler.attach_interface cfg env with
      | (tr, some e) => (Action.probe m.ip :: tr, some e)
      | (tr, none) =>
        match Handler.take_elastic_ip cfg env az with
        | (tr2, r) => (Action.probe m.ip :: (tr ++ tr2), r)
    else
      ([Action.probe m.ip], none)

/-- The `for member in members` loop (src 255-265): members are handled in
order inside the one outer try, so an exception escaping one member's
handling aborts the rest of the loop. -/
def processMembers (cfg : Config) (env : Env) :
    List SerfMember → List Action × Option Err
  | [] => ([], none)
  | m :: rest =>
    match processMember cfg env m with
    | (tr, some e) => (tr, some e)
    | (tr, none) =>
      let res := processMembers cfg env rest
      (tr ++ res.1, res.2)

/-- The try-block body of `main` (src 238-265): parse stdin members, stop
when none are relevant, gate on quorum, then dispatch on the event kind. -/
def dispatch (cfg : Config) (env : Env) (event : String) (rows : List String) :
    List Action × Option Err :=
  match get_serf_members rows with
  | .error e => ([], some e)
  | .ok members =>
    if members.isEmpty then ([], none)
    else if Quorum.quorum cfg env.aliveCount then
      if event == "member-join" then
        match Handler.take_elastic_ip cfg env env.currentAz with
        | (tr, some e) => (tr, some e)
        | (tr, none) =>
          let res := Handler.detach_interface cfg env
          (tr ++ res.1, res.2)
      else if event == "member-leave" || event == "member-failed" then
        processMembers cfg env members
      else ([], none)
    else ([], none)

/-- State of /etc/eip.conf when `main` opens it (src 231-234): the open
can raise IOError, `json.load` can raise ValueError, both before the try. -/
inductive ConfigFile where
  | missing
  | invalid
  | parsed (c : Config)

/-- `main` (src 230-267) plus the process exit status: the config load and
the `os.environ` SERF_EVENT read sit before the try, so their exceptions
escape and the interpreter exits 1; everything inside the try is caught by
the outer except (logged), and the process exits 0. -/
def main (file : ConfigFile) (serfEvent : Option String) (rows : List String)
    (env : Env) : List Action × Nat :=
  match file with
  | .missing => ([], 1)
  | .invalid => ([], 1)
  | .parsed cfg =>
    match serfEvent with
    | none => ([], 1)
    | some event =>
      let res := dispatch cfg env event rows
      (res.1, 0)

/-- A three-zone registry shaped like the /etc/eip.conf example of the
script's docstring, as used by the concrete runs below. -/
def cfgMain : Config :=
  ⟨[("eu-west-1a", .obj [("eth1_id", "eni-a1"), ("elastic_ip_allocation_id", "eip-a")]),
    ("eu-west-1b", .obj [("elastic_ip_allocation_id", "eip-b")]),
    ("eu-west-1c", .obj [("elastic_ip_allocation_id", "eip-c")])]⟩

/-- A registry whose entries carry no elastic_ip_allocation_id field
(shaped like the second fixture of src/tests.py). -/
def cfgNoEip : Config :=
  ⟨[("eu-west-1a", .obj [("route_table_id", "rtb-0e0ed06b")]),
    ("eu-west-1b", .obj [("route_table_id", "rtb-090ed06c")]),
    ("eu-west-1c", .obj [("route_table_id", "rtb-080ed06d")])]⟩

/-- Healthy oracles: the serf query reports 2 alive peers, the standby
interface is `available`, every probe connection attempt is refused
(code 111), no cloud call fails. -/
def envMain : Env where
  aliveCount := some 2
  instanceId := "i-1"
  currentAz := "eu-west-1a"
  ifaceStatus := fun o => if o == some "eni-a1" then some "available" else none
  instanceIfaceIds := ["eni-a0", "eni-a1"]
  probeOutcomes := fun _ _ => .code 111
  ifupFailures := 0
  associateFails := fun _ => false
  attachFails := false

/-- As `envMain`, but the EC2 associate call for allocation `eip-b` raises. -/
def envFailB : Env :=
  { envMain with associateFails := fun a => a == "eip-b" }

/-- As `envMain`, but the serf query reports only 1 alive peer. -/
def envNoQuorum : Env :=
  { envMain with aliveCount := some 1 }

/-- A member row of zone eu-west-1b as parsed from stdin. -/
def memberB : SerfMember :=
  ⟨"host-b", "10.0.0.1", "eip", [("az", "eu-west-1b")]⟩

/-- A member row of zone eu-west-1c. -/
def memberC : SerfMember :=
  ⟨"host-c", "10.0.0.2", "eip", [("az", "eu-west-1c")]⟩

/-- A member row whose az tag names the local node's own zone. -/
def memberLocal : SerfMember :=
  ⟨"host-a", "10.0.0.9", "eip", [("az", "eu-west-1a")]⟩

/-- Helper: an index strictly below 3 is 0, 1 or 2. -/
theorem exists_lt_three_iff {P : Nat → Prop} :
    (∃ i, i < 3 ∧ P i) ↔ P 0 ∨ P 1 ∨ P 2 := by
  constructor
  · rintro ⟨i, hi, hp⟩
    interval_cases i
    · exact Or.inl hp
    · exact Or.inr (Or.inl hp)
    · exact Or.inr (Or.inr hp)
  · rintro (h | h | h)
    · exact ⟨0, by omega, h⟩
    · exact ⟨1, by omega, h⟩
    · exact ⟨2, by omega, h⟩

/-- Helper: the probe reports the member up exactly when one of its three
attempts connects with return code 0. -/
theorem probe_down_iff (o : Nat → AttemptOutcome) :
    is_member_down o = false ↔
      (o 0 = .code 0 ∨ o 1 = .code 0 ∨ o 2 = .code 0) := by
  rcases h0 : o 0 with ⟨c0⟩ | _ <;> rcases h1 : o 1 with ⟨c1⟩ | _ <;>
    rcases h2 : o 2 with ⟨c2⟩ | _ <;>
    simp [is_member_down, probeLoop, h0, h1, h2] <;>
    split_ifs <;> simp_all

/-- Helper: the probe loop never makes more than its 3 retries. -/
theorem probeAttempts_le_three (o : Nat → AttemptOutcome) :
    probeAttempts o 0 3 ≤ 3 := by
  rcases h0 : o 0 with ⟨c0⟩ | _ <;> rcases h1 : o 1 with ⟨c1⟩ | _ <;>
    rcases h2 : o 2 with ⟨c2⟩ | _ <;>
    simp [probeAttempts, h0, h1, h2] <;>
    split_ifs <;> omega

/-- Helper: a first-attempt success consumes exactly one attempt. -/
theorem probeAttempts_first (o : Nat → AttemptOutcome) (h : o 0 = .code 0) :
    probeAttempts o 0 3 = 1 := by
  simp [probeAttempts, h]

/-- C6: for every sequence of attempt outcomes the liveness probe makes at
most 3 connection attempts, reports up (false) exactly when some of the
three attempts connects — stopping at the first success without consuming
the remaining retries — and reports down (true) when all attempts fail;
a transport exception is one of the modelled attempt outcomes and counts
as a failed attempt, the probe being a total function that never raises. -/
theorem probe_spec (o : Nat → AttemptOutcome) :
    (is_member_down o = false ↔ ∃ i, i < 3 ∧ o i = .code 0)
    ∧ probeAttempts o 0 3 ≤ 3
    ∧ (o 0 = .code 0 → probeAttempts o 0 3 = 1) :=
  ⟨(probe_down_iff o).trans
      (@exists_lt_three_iff (fun i => o i = AttemptOutcome.code 0)).symm,
    probeAttempts_le_three o, probeAttempts_first o⟩

/-- C6 witness: an immediately accepted connection uses a single attempt. -/
theorem probe_spec_witness :
    probeAttempts (fun _ => AttemptOutcome.code 0) 0 3 = 1 :=
  (probe_spec (fun _ => AttemptOutcome.code 0)).2.2 rfl

/-- C1: for a registry of T ≥ 1 zones the quorum threshold is T - ⌊T/2⌋
(values 1,1,2,2,3 for T = 1..5), and when the alive-count query succeeds
with count c, hasQuorum answers true exactly when c reaches the threshold. -/
theorem quorum_threshold_spec (c : Config) (cnt : Nat) (h : 1 ≤ c.num_zones) :
    (Quorum.quorum c (some cnt) = true ↔
      c.num_zones - c.num_zones / 2 ≤ cnt)
    ∧ (c.num_zones = 1 → c.num_zones - c.num_zones / 2 = 1)
    ∧ (c.num_zones = 2 → c.num_zones - c.num_zones / 2 = 1)
    ∧ (c.num_zones = 3 → c.num_zones - c.num_zones / 2 = 2)
    ∧ (c.num_zones = 4 → c.num_zones - c.num_zones / 2 = 2)
    ∧ (c.num_zones = 5 → c.num_zones - c.num_zones / 2 = 3) := by
  refine ⟨?_, fun hz => by rw [hz], fun hz => by rw [hz], fun hz => by rw [hz],
    fun hz => by rw [hz], fun hz => by rw [hz]⟩
  simp [Quorum.quorum, Quorum.alive]

/-- C1 witness: the three-zone registry with alive count 2 has quorum. -/
theorem quorum_threshold_spec_witness :
    Quorum.quorum cfgMain (some 2) = true :=
  (quorum_threshold_spec cfgMain 2 (by decide)).1.mpr (by decide)

/-- C2: when the alive-count query fails, hasQuorum answers false for
every registry — the evaluator fails closed, never open. -/
theorem quorum_fail_closed (c : Config) : Quorum.quorum c none = false := rfl

/-- C3: when the quorum evaluation is false, a full run issues no cloud or
OS action at all — no address claim, no interface attach, no detach — for
every event kind and every membership payload. -/
theorem no_quorum_no_action (cfg : Config) (env : Env) (event : String)
    (rows : List String) (h : Quorum.quorum cfg env.aliveCount = false) :
    (main (.parsed cfg) (some event) rows env).1 = [] := by
  show (dispatch cfg env event rows).1 = []
  unfold dispatch
  rcases hm : get_serf_members rows with ⟨e⟩ | ⟨members⟩
  · rfl
  · cases members with
    | nil => rfl
    | cons m ms => simp [h]

/-- C3 witness: alive count 1 against threshold 2 yields an action-free
member-failed run. -/
theorem no_quorum_no_action_witness :
    (main (.parsed cfgMain) (some "member-failed")
      ["host-b\t10.0.0.1\teip\taz=eu-west-1b"] envNoQuorum).1 = [] :=
  no_quorum_no_action cfgMain envNoQuorum "member-failed"
    ["host-b\t10.0.0.1\teip\taz=eu-west-1b"] (by decide)

/-- C8 counterexample: a missing config file makes the process exit with a
nonzero status, refuting the claim that every input exits 0. -/
theorem missing_config_exits_nonzero :
    (main ConfigFile.missing (some "member-join") [] envMain).2 ≠ 0 := by
  decide

/-- C8 (amended): once the config file has been opened and parsed and the
SERF_EVENT variable read, the process exits 0 for every event kind and
payload — every failure inside dispatch is caught and logged; but those
three pre-try steps are outside the handler, so a missing or unreadable
config file, invalid JSON, or missing SERF_EVENT exits 1. -/
theorem exit_status_spec (cfg : Config) (event : String) (rows : List String)
    (env : Env) :
    (main (.parsed cfg) (some event) rows env).2 = 0
    ∧ (main .missing (some event) rows env).2 = 1
    ∧ (main .invalid (some event) rows env).2 = 1
    ∧ (main (.parsed cfg) none rows env).2 = 1 :=
  ⟨rfl, rfl, rfl, rfl⟩

/-- C9: for a zone key present in the registry, an entry without the
elastic_ip_allocation_id field looks up as absent — never an error — and a
claim attempt for that zone issues no action and raises nothing; an entry
with the field looks up as exactly the stored value. -/
theorem absent_eip_field_spec (cfg : Config) (az : String) (env : Env)
    (fields : List (String × String))
    (hfind : cfg.find az = some (.obj fields)) :
    (dictGet fields "elastic_ip_allocation_id" = none →
      cfg.elastic_ip_allocation_id az = .ok none
      ∧ Handler.take_elastic_ip cfg env az = ([], none))
    ∧ (∀ v, dictGet fields "elastic_ip_allocation_id" = some v →
      cfg.elastic_ip_allocation_id az = .ok (some v)) := by
  constructor
  · intro habs
    have h1 : cfg.elastic_ip_allocation_id az = .ok none := by
      simp [Config.elastic_ip_allocation_id, hfind, habs]
    refine ⟨h1, ?_⟩
    unfold Handler.take_elastic_ip
    rw [h1]
    rfl
  · intro v hv
    simp [Config.elastic_ip_allocation_id, hfind, hv]

/-- C9 witness: the route-table-only fixture of src/tests.py looks up as
absent and a claim attempt for it is a silent no-op. -/
theorem absent_eip_field_spec_witness :
    Config.elastic_ip_allocation_id cfgNoEip "eu-west-1a" = .ok none
    ∧ Handler.take_elastic_ip cfgNoEip envMain "eu-west-1a" = ([], none) :=
  (absent_eip_field_spec cfgNoEip "eu-west-1a" envMain
    [("route_table_id", "rtb-0e0ed06b")] (by decide)).1 (by decide)

/-- C10: for a zone key absent from the registry mapping, both resource
lookups raise KeyError instead of answering absent, and a claim attempt
for that zone aborts with the KeyError before issuing any action. -/
theorem unregistered_zone_raises (cfg : Config) (az : String) (env : Env)
    (h : cfg.find az = none) :
    cfg.elastic_ip_allocation_id az = .error .keyError
    ∧ cfg.eth1_id az = .error .keyError
    ∧ Handler.take_elastic_ip cfg env az = ([], some .keyError) := by
  have h1 : cfg.elastic_ip_allocation_id az = .error .keyError := by
    unfold Config.elastic_ip_allocation_id
    rw [h]
  refine ⟨h1, ?_, ?_⟩
  · unfold Config.eth1_id
    rw [h]
  · unfold Handler.take_elastic_ip
    rw [h1]

/-- C10 witness: the zone eu-west-1d is not registered, so its lookups and
claim attempt raise KeyError. -/
theorem unregistered_zone_raises_witness :
    Config.elastic_ip_allocation_id cfgMain "eu-west-1d" = .error .keyError
    ∧ Config.eth1_id cfgMain "eu-west-1d" = .error .keyError
    ∧ Handler.take_elastic_ip cfgMain envMain "eu-west-1d" =
        ([], some .keyError) :=
  unregistered_zone_raises cfgMain "eu-west-1d" envMain (by decide)

/-- C4 counterexample: a reported peer whose az tag names the local zone
is confirmed down and then claimed onto the primary (eth0) attachment
point, not the standby one — refuting the claim that every confirmed-down
peer's floating address is claimed onto the standby attachment point. -/
theorem local_zone_claim_targets_primary :
    (processMember cfgMain envMain memberLocal).1 =
      [Action.probe "10.0.0.9", Action.describeIface (some "eni-a1"),
        Action.attachIface (some "eni-a1") "i-1", Action.ifupCycle,
        Action.getInstances, Action.associate (some "eni-a0") "eip-a"]
    ∧ Action.associate (some "eni-a1") "eip-a" ∉
        (processMember cfgMain envMain memberLocal).1 := by
  decide

/-- C4 (amended): under quorum handling of a leave/failed event, a peer
whose probe answers is skipped with no attach and no claim; a
confirmed-down peer gets the standby attach step first (describe, attach,
OS bring-up, given the interface is available) and then the claim of its
zone's address — onto the standby attachment point when the peer's zone
differs from the local zone, but onto the primary (eth0) attachment point
when the peer sits in the local zone. -/
theorem member_down_attach_then_claim (cfg : Config) (env : Env)
    (m : SerfMember) (az e1 a : String)
    (haz : dictLookupLast m.tags "az" = some az)
    (he1 : cfg.eth1_id env.currentAz = .ok (some e1))
    (ha : cfg.elastic_ip_allocation_id az = .ok (some a))
    (ha0 : a ≠ "")
    (hs : env.ifaceStatus (some e1) = some "available")
    (hatt : env.attachFails = false)
    (hass : env.associateFails a = false) :
    (is_member_down (env.probeOutcomes m.ip) = false →
      processMember cfg env m = ([Action.probe m.ip], none))
    ∧ (is_member_down (env.probeOutcomes m.ip) = true → az ≠ env.currentAz →
      processMember cfg env m =
        ([Action.probe m.ip, Action.describeIface (some e1),
            Action.attachIface (some e1) env.instanceId]
          ++ List.replicate (env.ifupFailures + 1) Action.ifupCycle
          ++ [Action.associate (some e1) a], none))
    ∧ (is_member_down (env.probeOutcomes m.ip) = true → az = env.currentAz →
      ∀ i0, Handler.eth0_id cfg env = ([Action.getInstances], .ok i0) →
      processMember cfg env m =
        ([Action.probe m.ip, Action.describeIface (some e1),
            Action.attachIface (some e1) env.instanceId]
          ++ List.replicate (env.ifupFailures + 1) Action.ifupCycle
          ++ [Action.getInstances, Action.associate (some i0) a], none)) := by
  have hattach : Handler.attach_interface cfg env =
      ([Action.describeIface (some e1),
          Action.attachIface (some e1) env.instanceId]
        ++ List.replicate (env.ifupFailures + 1) Action.ifupCycle, none) := by
    simp [Handler.attach_interface, he1, hs, hatt]
  refine ⟨?_, ?_, ?_⟩
  · intro hup
    simp [processMember, haz, hup]
  · intro hdown hne
    have hbeq : (az == env.currentAz) = false := by simp [hne]
    have htake : Handler.take_elastic_ip cfg env az =
        ([Action.associate (some e1) a], none) := by
      unfold Handler.take_elastic_ip
      rw [ha]
      simp [truthy, ha0, hbeq, he1, hass]
    simp [processMember, haz, hdown, hattach, htake]
  · intro hdown heq i0 hi0
    have hbeq : (az == env.currentAz) = true := by simp [heq]
    have htake : Handler.take_elastic_ip cfg env az =
        ([Action.getInstances, Action.associate (some i0) a], none) := by
      unfold Handler.take_elastic_ip
      rw [ha]
      simp [truthy, ha0, hbeq, hi0, hass]
    simp [processMember, haz, hdown, hattach, htake]

/-- C4 witness: the confirmed-down peer of foreign zone eu-west-1b gets
attach, bring-up, then the claim onto the standby interface. -/
theorem member_down_attach_then_claim_witness :
    processMember cfgMain envMain memberB =
      ([Action.probe "10.0.0.1", Action.describeIface (some "eni-a1"),
          Action.attachIface (some "eni-a1") "i-1"]
        ++ List.replicate 1 Action.ifupCycle
        ++ [Action.associate (some "eni-a1") "eip-b"], none) := by
  have h := member_down_attach_then_claim cfgMain envMain memberB
    "eu-west-1b" "eni-a1" "eip-b" rfl rfl rfl (by decide) rfl rfl rfl
  exact h.2.1 (by decide) (by decide)

/-- C5 counterexample: with the EC2 associate call failing for zone
eu-west-1b's allocation, a member-failed event reporting two peers stops
at the first one: the sibling peer is never probed, attached for, or
claimed for, refuting the claim that sibling peers in the same event
still get their own attempt. -/
theorem peer_failure_aborts_siblings_cex :
    dispatch cfgMain envFailB "member-failed"
        ["host-b\t10.0.0.1\teip\taz=eu-west-1b",
          "host-c\t10.0.0.2\teip\taz=eu-west-1c"] =
      ([Action.probe "10.0.0.1", Action.describeIface (some "eni-a1"),
          Action.attachIface (some "eni-a1") "i-1", Action.ifupCycle,
          Action.associate (some "eni-a1") "eip-b"], some .resourceApiError)
    ∧ Action.probe "10.0.0.2" ∉
        (dispatch cfgMain envFailB "member-failed"
          ["host-b\t10.0.0.1\teip\taz=eu-west-1b",
            "host-c\t10.0.0.2\teip\taz=eu-west-1c"]).1 := by
  decide

/-- C5 (amended): an exception escaping one peer's handling sequence ends
the whole per-event loop: the run keeps that peer's partial trace and its
error, and every subsequent peer of the same event is skipped entirely;
the error is caught and logged only at the outer dispatch boundary. -/
theorem peer_failure_aborts_rest (cfg : Config) (env : Env) (m : SerfMember)
    (rest : List SerfMember) (tr : List Action) (e : Err)
    (h : processMember cfg env m = (tr, some e)) :
    processMembers cfg env (m :: rest) = (tr, some e) := by
  unfold processMembers
  rw [h]

/-- C5 witness: the two-peer loop with the failing associate call stops
after the first peer. -/
theorem peer_failure_aborts_rest_witness :
    processMembers cfgMain envFailB [memberB, memberC] =
      ([Action.probe "10.0.0.1", Action.describeIface (some "eni-a1"),
          Action.attachIface (some "eni-a1") "i-1", Action.ifupCycle,
          Action.associate (some "eni-a1") "eip-b"], some .resourceApiError) :=
  peer_failure_aborts_rest cfgMain envFailB memberB [memberC]
    [Action.probe "10.0.0.1", Action.describeIface (some "eni-a1"),
      Action.attachIface (some "eni-a1") "i-1", Action.ifupCycle,
      Action.associate (some "eni-a1") "eip-b"] .resourceApiError (by decide)

/-- Helper: every tag-parse failure is a ValueError. -/
theorem parseTagList_error_eq (xs : List (List Char)) :
    ∀ e, parseTagList xs = .error e → e = .valueError := by
  induction xs with
  | nil =>
    intro e h
    exact absurd h (by simp [parseTagList])
  | cons x rest ih =>
    intro e
    unfold parseTagList
    rcases hsp : pySplit '=' x with _ | ⟨p1, _ | ⟨p2, _ | ⟨p3, tl⟩⟩⟩
    · intro h
      injection h with h2
      exact h2.symm
    · intro h
      injection h with h2
      exact h2.symm
    · cases hrec : parseTagList rest with
      | ok tags =>
        intro h
        exact absurd h (by simp)
      | error e2 =>
        intro h
        injection h with h2
        rw [← h2]
        exact ih e2 hrec
    · intro h
      injection h with h2
      exact h2.symm

/-- Helper: every member-row parse failure is a ValueError. -/
theorem parse_member_error_eq (row : String) :
    ∀ e, parse_member row = .error e → e = .valueError := by
  intro e
  unfold parse_member
  rcases hsp : (pySplit '\t' (pyStrip row.data)).map String.mk with
    _ | ⟨f1, _ | ⟨f2, _ | ⟨f3, _ | ⟨f4, _ | ⟨f5, tl⟩⟩⟩⟩⟩
  · intro h
    injection h with h2
    exact h2.symm
  · intro h
    injection h with h2
    exact h2.symm
  · intro h
    injection h with h2
    exact h2.symm
  · intro h
    injection h with h2
    exact h2.symm
  · show (match parse_tags f4 with
        | Except.ok tags => Except.ok (⟨f1, f2, f3, tags⟩ : SerfMember)
        | Except.error e2 => Except.error e2) = Except.error e →
      e = Err.valueError
    cases htags : parse_tags f4 with
    | ok tags =>
      intro h
      exact absurd h (by simp)
    | error e2 =>
      intro h
      injection h with h2
      rw [← h2]
      exact parseTagList_error_eq _ e2 htags
  · intro h
    injection h with h2
    exact h2.symm

/-- Helper: a tag piece that does not split on = into exactly two parts
poisons the whole tag parse. -/
theorem parseTagList_error_of_bad (x : List Char)
    (hlen : (pySplit '=' x).length ≠ 2) :
    ∀ xs : List (List Char), x ∈ xs → parseTagList xs = .error .valueError := by
  intro xs
  induction xs with
  | nil =>
    intro hx
    cases hx
  | cons x0 rest ih =>
    intro hx
    unfold parseTagList
    rcases List.mem_cons.mp hx with h | h
    · subst h
      rcases hsp : pySplit '=' x with _ | ⟨p1, _ | ⟨p2, _ | ⟨p3, tl⟩⟩⟩
      · rfl
      · rfl
      · exact absurd (by rw [hsp]; rfl) hlen
      · rfl
    · rcases hsp : pySplit '=' x0 with _ | ⟨p1, _ | ⟨p2, _ | ⟨p3, tl⟩⟩⟩
      · rfl
      · rfl
      · rw [ih h]
      · rfl

/-- Helper: one malformed row poisons the eager parse of all rows. -/
theorem parseRows_error_of_mem (r : String) (e : Err)
    (hbad : parse_member r = .error e) :
    ∀ rows : List String, r ∈ rows → parseRows rows = .error .valueError := by
  intro rows
  induction rows with
  | nil =>
    intro hr
    cases hr
  | cons r0 rs ih =>
    intro hr
    unfold parseRows
    rcases List.mem_cons.mp hr with h | h
    · subst h
      rw [hbad, parse_member_error_eq r e hbad]
    · cases hp : parse_member r0 with
      | error e0 => rw [parse_member_error_eq r0 e0 hp]
      | ok m => rw [ih h]

/-- C7 (amended): a membership row that does not split into exactly 4
tab-separated fields, or whose tag pair lacks exactly one =, raises a
ValueError; because all rows are parsed eagerly before any is processed,
that single malformed row aborts the entire payload inside the outer try:
the run ends with the logged ValueError, no row of the event — well-formed
ones included — is processed, and no action is taken. -/
theorem malformed_row_aborts_event (cfg : Config) (env : Env) (event : String)
    (rows : List String) (r : String) (hr : r ∈ rows) :
    ((pySplit '\t' (pyStrip r.data)).length ≠ 4 →
      parse_member r = .error .valueError)
    ∧ (∀ hn ipf rl ts,
        (pySplit '\t' (pyStrip r.data)).map String.mk = [hn, ipf, rl, ts] →
        ∀ x, x ∈ pySplit ',' ts.data → (pySplit '=' x).length ≠ 2 →
        parse_member r = .error .valueError)
    ∧ (∀ e, parse_member r = .error e →
        get_serf_members rows = .error .valueError
        ∧ dispatch cfg env event rows = ([], some .valueError)) := by
  refine ⟨?_, ?_, ?_⟩
  · intro hlen
    unfold parse_member
    rcases hsp : (pySplit '\t' (pyStrip r.data)).map String.mk with
      _ | ⟨f1, _ | ⟨f2, _ | ⟨f3, _ | ⟨f4, _ | ⟨f5, tl⟩⟩⟩⟩⟩
    · rfl
    · rfl
    · rfl
    · rfl
    · have h4 : (pySplit '\t' (pyStrip r.data)).length = 4 := by
        have hc := congrArg List.length hsp
        simpa using hc
      exact absurd h4 hlen
    · rfl
  · intro hn ipf rl ts hfields x hx hxlen
    have htags : parse_tags ts = .error .valueError :=
      parseTagList_error_of_bad x hxlen (pySplit ',' ts.data) hx
    unfold parse_member
    rw [hfields]
    simp [htags]
  · intro e hbad
    have hp : parseRows rows = .error .valueError :=
      parseRows_error_of_mem r e hbad rows hr
    have hg : get_serf_members rows = .error .valueError := by
      unfold get_serf_members
      rw [hp]
    refine ⟨hg, ?_⟩
    unfold dispatch
    rw [hg]

/-- C7 counterexample: a payload holding one well-formed row and one
malformed row takes no action at all — while the same well-formed row
alone is probed — refuting the claim that a malformed row only drops that
row and leaves its siblings processed. -/
theorem malformed_row_fatal_cex :
    dispatch cfgMain envMain "member-failed"
        ["host-b\t10.0.0.1\teip\taz=eu-west-1b", "a\tb"] =
      ([], some .valueError)
    ∧ Action.probe "10.0.0.1" ∈
        (dispatch cfgMain envMain "member-failed"
          ["host-b\t10.0.0.1\teip\taz=eu-west-1b"]).1 := by
  decide

/-- C7 witness: the two-field row is rejected and a payload holding it
aborts with the logged ValueError and an empty action trace. -/
theorem malformed_row_aborts_event_witness :
    parse_member "a\tb" = .error .valueError
    ∧ dispatch cfgMain envMain "member-failed" ["a\tb"] =
        ([], some .valueError) := by
  have h := malformed_row_aborts_event cfgMain envMain "member-failed"
    ["a\tb"] "a\tb" (by decide)
  have hb : parse_member "a\tb" = .error .valueError := h.1 (by decide)
  exact ⟨hb, (h.2.2 .valueError hb).2⟩

end EipFailover
